import Mathlib

/-!
Shallow embedding of the faceoff repository's caching HTTP client
(`src/faceoff/api/client.py`) and the per-screen refresh/relayout logic
(`src/faceoff/screens/schedule.py`, `src/faceoff/screens/game.py`),
with theorems settling the specification's claims about them.

Conventions: timestamps and durations are integers (the Python code uses
float epoch seconds; nothing here depends on fractional time), response
payloads are opaque and modelled as `Nat`, and the network is an oracle
`Net` mapping a URL and a call time to either a payload or an error
status, standing for `httpx.Client.get` + `raise_for_status` + `json()`.
-/

/-- Opaque response payload (`response.json()` result). -/
abbrev Payload := Nat

/-- Network oracle: what the remote feed answers for a given URL at a given
time. `.error s` stands for a network failure or non-success status `s`
(which `raise_for_status` turns into an exception). -/
abbrev Net := String → Int → Except Nat Payload

/-- The response cache `self._cache : dict[str, tuple[float, Any]]`:
an association list from URL to (fetchedAt, payload), at most one entry
per key by construction. -/
abbrev Cache := List (String × Int × Payload)

/-- Dictionary lookup `self._cache[url]`. -/
def cacheLookup (c : Cache) (url : String) : Option (Int × Payload) :=
  match c with
  | [] => none
  | (u, t, v) :: rest => if u = url then some (t, v) else cacheLookup rest url

/-- Dictionary assignment `self._cache[url] = (now, data)`: replaces the
entry for `url` if present, else appends it. -/
def cacheInsert (c : Cache) (url : String) (t : Int) (v : Payload) : Cache :=
  match c with
  | [] => [(url, t, v)]
  | (u, t0, v0) :: rest =>
      if u = url then (url, t, v) :: rest
      else (u, t0, v0) :: cacheInsert rest url t v

namespace NHLClient

/-- `BASE_URL` from `NHLClient`. -/
def BASE_URL : String := "https://api-web.nhle.com/v1"

/-- URL construction `f"{self.BASE_URL}{endpoint}"`. -/
def urlOf (endpoint : String) : String := BASE_URL ++ endpoint

/-- `self._cache_ttl = 30.0` (seconds), the default TTL. -/
def cacheTtlDefault : Int := 30

instance : DecidableEq (Except Nat Payload) := fun a b =>
  match a, b with
  | .error x, .error y =>
      if h : x = y then .isTrue (congrArg Except.error h)
      else .isFalse (fun hc => h (Except.error.inj hc))
  | .error _, .ok _ => .isFalse (fun hc => Except.noConfusion hc)
  | .ok _, .error _ => .isFalse (fun hc => Except.noConfusion hc)
  | .ok x, .ok y =>
      if h : x = y then .isTrue (congrArg Except.ok h)
      else .isFalse (fun hc => h (Except.ok.inj hc))

/-- Result of one `_get` call: the returned value or raised error, the
cache afterwards, and how many network requests were issued (0 or 1). -/
structure GetResult where
  result : Except Nat Payload
  cache : Cache
  netCalls : Nat
  deriving DecidableEq

/-- The cache-miss path of `_get`: `response = self._http.get(url)`,
`response.raise_for_status()`, then on success store
`self._cache[url] = (datetime.now().timestamp(), data)` and return the
data. On failure the exception propagates before the cache is touched. -/
def fetchFresh (net : Net) (c : Cache) (url : String) (now : Int) : GetResult :=
  match net url now with
  | .error s => { result := .error s, cache := c, netCalls := 1 }
  | .ok d => { result := .ok d, cache := cacheInsert c url now d, netCalls := 1 }

/-- Embeds `NHLClient._get(endpoint, cache_ttl=None)`:
resolve `ttl = cache_ttl if cache_ttl is not None else self._cache_ttl`,
return the cached value if an entry exists and
`now - cached_time < ttl`, otherwise perform the network request. -/
def get (net : Net) (c : Cache) (endpoint : String) (now : Int)
    (cache_ttl : Option Int) : GetResult :=
  let url := urlOf endpoint
  let ttl := cache_ttl.getD cacheTtlDefault
  match cacheLookup c url with
  | some (t0, d0) =>
      if now - t0 < ttl then { result := .ok d0, cache := c, netCalls := 0 }
      else fetchFresh net c url now
  | none => fetchFresh net c url now

/-- Embeds `NHLClient.clear_cache` (`self._cache.clear()`). -/
def clear_cache (_c : Cache) : Cache := []

end NHLClient

theorem cacheLookup_insert_self (c : Cache) (url : String) (t : Int) (v : Payload) :
    cacheLookup (cacheInsert c url t v) url = some (t, v) := by
  induction c with
  | nil => simp [cacheInsert, cacheLookup]
  | cons hd tl ih =>
      obtain ⟨u, t0, v0⟩ := hd
      by_cases h : u = url
      · simp [cacheInsert, cacheLookup, h]
      · simp [cacheInsert, cacheLookup, h, ih]

theorem cacheLookup_insert_ne (c : Cache) (url q : String) (t : Int) (v : Payload)
    (hne : q ≠ url) :
    cacheLookup (cacheInsert c url t v) q = cacheLookup c q := by
  induction c with
  | nil => simp [cacheInsert, cacheLookup, Ne.symm hne]
  | cons hd tl ih =>
      obtain ⟨u, t0, v0⟩ := hd
      by_cases h : u = url
      · simp [cacheInsert, cacheLookup, h, Ne.symm hne]
      · simp [cacheInsert, cacheLookup, h, ih]

/-- A `_get` call that finds a fresh entry returns it with no network call. -/
theorem get_hit (net : Net) (c : Cache) (ep : String) (now : Int)
    (cache_ttl : Option Int) (t0 : Int) (d0 : Payload)
    (hlook : cacheLookup c (NHLClient.urlOf ep) = some (t0, d0))
    (hfresh : now - t0 < cache_ttl.getD NHLClient.cacheTtlDefault) :
    NHLClient.get net c ep now cache_ttl =
      { result := .ok d0, cache := c, netCalls := 0 } := by
  unfold NHLClient.get
  simp [hlook, hfresh]

/-- A `_get` call with no fresh entry and a successful network response
stores and returns the response, with exactly one network call. -/
theorem get_stale_ok (net : Net) (c : Cache) (ep : String) (now : Int)
    (cache_ttl : Option Int) (v : Payload)
    (hmiss : ∀ t0 v0, cacheLookup c (NHLClient.urlOf ep) = some (t0, v0) →
      cache_ttl.getD NHLClient.cacheTtlDefault ≤ now - t0)
    (hnet : net (NHLClient.urlOf ep) now = .ok v) :
    NHLClient.get net c ep now cache_ttl =
      { result := .ok v, cache := cacheInsert c (NHLClient.urlOf ep) now v,
        netCalls := 1 } := by
  unfold NHLClient.get
  cases hlook : cacheLookup c (NHLClient.urlOf ep) with
  | none => simp [hlook, NHLClient.fetchFresh, hnet]
  | some p =>
      obtain ⟨t0, d0⟩ := p
      have h := hmiss t0 d0 hlook
      have h2 : ¬ (now - t0 < cache_ttl.getD NHLClient.cacheTtlDefault) := by omega
      simp [hlook, h2, NHLClient.fetchFresh, hnet]

/-- A `_get` call with no fresh entry and a failing network request raises
the error and leaves the cache as it was, with exactly one network call. -/
theorem get_stale_error (net : Net) (c : Cache) (ep : String) (now : Int)
    (cache_ttl : Option Int) (s : Nat)
    (hmiss : ∀ t0 v0, cacheLookup c (NHLClient.urlOf ep) = some (t0, v0) →
      cache_ttl.getD NHLClient.cacheTtlDefault ≤ now - t0)
    (hnet : net (NHLClient.urlOf ep) now = .error s) :
    NHLClient.get net c ep now cache_ttl =
      { result := .error s, cache := c, netCalls := 1 } := by
  unfold NHLClient.get
  cases hlook : cacheLookup c (NHLClient.urlOf ep) with
  | none => simp [hlook, NHLClient.fetchFresh, hnet]
  | some p =>
      obtain ⟨t0, d0⟩ := p
      have h := hmiss t0 d0 hlook
      have h2 : ¬ (now - t0 < cache_ttl.getD NHLClient.cacheTtlDefault) := by omega
      simp [hlook, h2, NHLClient.fetchFresh, hnet]

/-- The value and network-call count of a `_get` call depend only on the
cache's entry for the call's own URL. -/
theorem get_result_congr (net : Net) (c1 c2 : Cache) (ep : String) (now : Int)
    (cache_ttl : Option Int)
    (h : cacheLookup c1 (NHLClient.urlOf ep) = cacheLookup c2 (NHLClient.urlOf ep)) :
    (NHLClient.get net c1 ep now cache_ttl).result
      = (NHLClient.get net c2 ep now cache_ttl).result
    ∧ (NHLClient.get net c1 ep now cache_ttl).netCalls
      = (NHLClient.get net c2 ep now cache_ttl).netCalls := by
  simp only [NHLClient.get]
  rw [h]
  cases hlook : cacheLookup c2 (NHLClient.urlOf ep) with
  | none =>
      simp only [NHLClient.fetchFresh]
      cases net (NHLClient.urlOf ep) now <;> exact ⟨rfl, rfl⟩
  | some p =>
      obtain ⟨t0, d0⟩ := p
      by_cases hfresh : now - t0 < cache_ttl.getD NHLClient.cacheTtlDefault
      · simp [hfresh]
      · simp only [hfresh, if_false, NHLClient.fetchFresh]
        cases net (NHLClient.urlOf ep) now <;> exact ⟨rfl, rfl⟩

/-- The `_get` call leaves every entry other than its own URL's untouched. -/
theorem get_cache_lookup_other (net : Net) (c : Cache) (ep : String) (now : Int)
    (cache_ttl : Option Int) (q : String) (hq : q ≠ NHLClient.urlOf ep) :
    cacheLookup (NHLClient.get net c ep now cache_ttl).cache q = cacheLookup c q := by
  unfold NHLClient.get
  cases hlook : cacheLookup c (NHLClient.urlOf ep) with
  | none =>
      simp only [hlook, NHLClient.fetchFresh]
      cases net (NHLClient.urlOf ep) now with
      | error s => rfl
      | ok d => exact cacheLookup_insert_ne c (NHLClient.urlOf ep) q now d hq
  | some p =>
      obtain ⟨t0, d0⟩ := p
      simp only [hlook]
      by_cases hfresh : now - t0 < cache_ttl.getD NHLClient.cacheTtlDefault
      · simp [hfresh]
      · simp only [hfresh, if_false, NHLClient.fetchFresh]
        cases net (NHLClient.urlOf ep) now with
        | error s => rfl
        | ok d => exact cacheLookup_insert_ne c (NHLClient.urlOf ep) q now d hq

/-- C1: for every path, calling fetch twice with the same path, the second
call within ttl seconds of the first and with no intervening cache clear,
issues exactly one network call across the two calls, and both calls
return the same value (here the value the network served the first call).
The hypotheses state what the scenario presumes: the first call does not
find a fresh entry, and its network request succeeds. -/
theorem c1_fetch_twice_one_network_call (net : Net) (c : Cache) (ep : String)
    (t1 t2 : Int) (cache_ttl : Option Int) (v : Payload)
    (hmiss : ∀ t0 v0, cacheLookup c (NHLClient.urlOf ep) = some (t0, v0) →
      cache_ttl.getD NHLClient.cacheTtlDefault ≤ t1 - t0)
    (hnet : net (NHLClient.urlOf ep) t1 = .ok v)
    (hwithin : t2 - t1 < cache_ttl.getD NHLClient.cacheTtlDefault) :
    (NHLClient.get net c ep t1 cache_ttl).netCalls
      + (NHLClient.get net (NHLClient.get net c ep t1 cache_ttl).cache
          ep t2 cache_ttl).netCalls = 1
    ∧ (NHLClient.get net c ep t1 cache_ttl).result = .ok v
    ∧ (NHLClient.get net (NHLClient.get net c ep t1 cache_ttl).cache
        ep t2 cache_ttl).result = .ok v := by
  have h1 := get_stale_ok net c ep t1 cache_ttl v hmiss hnet
  have hlook2 : cacheLookup (NHLClient.get net c ep t1 cache_ttl).cache
      (NHLClient.urlOf ep) = some (t1, v) := by
    rw [h1]
    exact cacheLookup_insert_self c (NHLClient.urlOf ep) t1 v
  have h2 := get_hit net (NHLClient.get net c ep t1 cache_ttl).cache ep t2
    cache_ttl t1 v hlook2 hwithin
  rw [h1] at h2 ⊢
  rw [h2]
  exact ⟨rfl, rfl, rfl⟩

/-- Witness for C1: the spec scenario with ttl = 10 and calls 3 seconds
apart, from an empty cache, against a network that always serves 7. -/
theorem c1_fetch_twice_one_network_call_witness :
    (NHLClient.get (fun _ _ => .ok 7) [] "/scoreboard/now" 0 (some 10)).netCalls
      + (NHLClient.get (fun _ _ => .ok 7)
          (NHLClient.get (fun _ _ => .ok 7) [] "/scoreboard/now" 0 (some 10)).cache
          "/scoreboard/now" 3 (some 10)).netCalls = 1
    ∧ (NHLClient.get (fun _ _ => .ok 7) [] "/scoreboard/now" 0 (some 10)).result = .ok 7
    ∧ (NHLClient.get (fun _ _ => .ok 7)
        (NHLClient.get (fun _ _ => .ok 7) [] "/scoreboard/now" 0 (some 10)).cache
        "/scoreboard/now" 3 (some 10)).result = .ok 7 :=
  c1_fetch_twice_one_network_call (fun _ _ => .ok 7) [] "/scoreboard/now" 0 3
    (some 10) 7 (fun _ _ h => Option.noConfusion h) rfl (by decide)

/-- C2: for every path, if the call reaches the network (no fresh cache
entry) and the request fails or the response is non-success, the fetch
raises an error carrying the underlying status, and the cache is exactly
as it was before the call: no entry added, removed, or updated. -/
theorem c2_failure_leaves_cache_unmodified (net : Net) (c : Cache) (ep : String)
    (now : Int) (cache_ttl : Option Int) (s : Nat)
    (hmiss : ∀ t0 v0, cacheLookup c (NHLClient.urlOf ep) = some (t0, v0) →
      cache_ttl.getD NHLClient.cacheTtlDefault ≤ now - t0)
    (hnet : net (NHLClient.urlOf ep) now = .error s) :
    (NHLClient.get net c ep now cache_ttl).result = .error s
    ∧ (NHLClient.get net c ep now cache_ttl).cache = c
    ∧ (NHLClient.get net c ep now cache_ttl).netCalls = 1 := by
  rw [get_stale_error net c ep now cache_ttl s hmiss hnet]
  exact ⟨rfl, rfl, rfl⟩

/-- Witness for C2: a network that answers 404 for everything, a cache
holding one stale entry for the requested path. -/
theorem c2_failure_leaves_cache_unmodified_witness :
    (NHLClient.get (fun _ _ => .error 404)
      [(NHLClient.urlOf "/standings/now", 0, 5)] "/standings/now" 50 none).result
        = .error 404
    ∧ (NHLClient.get (fun _ _ => .error 404)
        [(NHLClient.urlOf "/standings/now", 0, 5)] "/standings/now" 50 none).cache
          = [(NHLClient.urlOf "/standings/now", 0, 5)]
    ∧ (NHLClient.get (fun _ _ => .error 404)
        [(NHLClient.urlOf "/standings/now", 0, 5)] "/standings/now" 50 none).netCalls
          = 1 :=
  c2_failure_leaves_cache_unmodified (fun _ _ => .error 404)
    [(NHLClient.urlOf "/standings/now", 0, 5)] "/standings/now" 50 none 404
    (by
      intro t0 v0 h
      simp [cacheLookup] at h
      simp [NHLClient.cacheTtlDefault]
      omega)
    rfl

/-- C6: an entry stored at `fetchedAt` is stale once `now - fetchedAt ≥ ttl`;
a fetch at or after that moment issues a second network call and stores the
new result with `fetchedAt` updated to the current time. -/
theorem c6_stale_entry_refetched (net : Net) (c : Cache) (ep : String)
    (t0 now : Int) (v0 v1 : Payload) (cache_ttl : Option Int)
    (hentry : cacheLookup c (NHLClient.urlOf ep) = some (t0, v0))
    (hstale : cache_ttl.getD NHLClient.cacheTtlDefault ≤ now - t0)
    (hnet : net (NHLClient.urlOf ep) now = .ok v1) :
    (NHLClient.get net c ep now cache_ttl).netCalls = 1
    ∧ (NHLClient.get net c ep now cache_ttl).result = .ok v1
    ∧ cacheLookup (NHLClient.get net c ep now cache_ttl).cache
        (NHLClient.urlOf ep) = some (now, v1) := by
  have hmiss : ∀ t0' v0', cacheLookup c (NHLClient.urlOf ep) = some (t0', v0') →
      cache_ttl.getD NHLClient.cacheTtlDefault ≤ now - t0' := by
    intro t0' v0' h
    rw [hentry] at h
    obtain ⟨h1, h2⟩ := Prod.mk.injEq .. ▸ Option.some.inj h
    omega
  rw [get_stale_ok net c ep now cache_ttl v1 hmiss hnet]
  exact ⟨rfl, rfl, cacheLookup_insert_self c (NHLClient.urlOf ep) now v1⟩

/-- Witness for C6: entry fetched at time 0, ttl 10, refetched at time 10
when the network now serves 9. -/
theorem c6_stale_entry_refetched_witness :
    (NHLClient.get (fun _ _ => .ok 9)
      [(NHLClient.urlOf "/scoreboard/now", 0, 7)] "/scoreboard/now" 10 (some 10)).netCalls = 1
    ∧ (NHLClient.get (fun _ _ => .ok 9)
        [(NHLClient.urlOf "/scoreboard/now", 0, 7)] "/scoreboard/now" 10 (some 10)).result
          = .ok 9
    ∧ cacheLookup (NHLClient.get (fun _ _ => .ok 9)
        [(NHLClient.urlOf "/scoreboard/now", 0, 7)] "/scoreboard/now" 10 (some 10)).cache
        (NHLClient.urlOf "/scoreboard/now") = some (10, 9) :=
  c6_stale_entry_refetched (fun _ _ => .ok 9)
    [(NHLClient.urlOf "/scoreboard/now", 0, 7)] "/scoreboard/now" 0 10 7 9 (some 10)
    (by simp [cacheLookup]) (by decide) rfl

/-- C9: a `cache_ttl` override governs the staleness decision for that
call's own entry only: with a fresh-by-override entry the call returns it
without a network request, the entry of every other URL is untouched, and
a later call on a different path behaves (value and network-call count)
exactly as it would had the override never been passed. -/
theorem c9_ttl_override_is_per_call (net : Net) (c : Cache) (p q : String)
    (t0 now t2 : Int) (v0 : Payload) (o : Int) (ttl2 : Option Int)
    (hentry : cacheLookup c (NHLClient.urlOf p) = some (t0, v0))
    (hq : NHLClient.urlOf q ≠ NHLClient.urlOf p) :
    (now - t0 < o →
      NHLClient.get net c p now (some o)
        = { result := .ok v0, cache := c, netCalls := 0 })
    ∧ cacheLookup (NHLClient.get net c p now (some o)).cache (NHLClient.urlOf q)
        = cacheLookup c (NHLClient.urlOf q)
    ∧ (NHLClient.get net (NHLClient.get net c p now (some o)).cache q t2 ttl2).result
        = (NHLClient.get net c q t2 ttl2).result
    ∧ (NHLClient.get net (NHLClient.get net c p now (some o)).cache q t2 ttl2).netCalls
        = (NHLClient.get net c q t2 ttl2).netCalls := by
  have hother := get_cache_lookup_other net c p now (some o) (NHLClient.urlOf q) hq
  have hcongr := get_result_congr net (NHLClient.get net c p now (some o)).cache c
    q t2 ttl2 hother
  exact ⟨fun hfresh => get_hit net c p now (some o) t0 v0 hentry hfresh,
    hother, hcongr.1, hcongr.2⟩

/-- Witness for C9: one entry per path, an override of 100 on the first
call keeps its old entry fresh, and the second path's behavior matches the
no-override run. -/
theorem c9_ttl_override_is_per_call_witness :
    ((50 : Int) - 0 < 100 →
      NHLClient.get (fun _ _ => .ok 3)
        [(NHLClient.urlOf "/schedule/now", 0, 5)] "/schedule/now" 50 (some 100)
        = { result := .ok 5,
            cache := [(NHLClient.urlOf "/schedule/now", 0, 5)], netCalls := 0 })
    ∧ cacheLookup (NHLClient.get (fun _ _ => .ok 3)
        [(NHLClient.urlOf "/schedule/now", 0, 5)] "/schedule/now" 50 (some 100)).cache
        (NHLClient.urlOf "/standings/now")
        = cacheLookup [(NHLClient.urlOf "/schedule/now", 0, 5)]
            (NHLClient.urlOf "/standings/now")
    ∧ (NHLClient.get (fun _ _ => .ok 3)
        (NHLClient.get (fun _ _ => .ok 3)
          [(NHLClient.urlOf "/schedule/now", 0, 5)] "/schedule/now" 50 (some 100)).cache
        "/standings/now" 60 none).result
        = (NHLClient.get (fun _ _ => .ok 3)
            [(NHLClient.urlOf "/schedule/now", 0, 5)] "/standings/now" 60 none).result
    ∧ (NHLClient.get (fun _ _ => .ok 3)
        (NHLClient.get (fun _ _ => .ok 3)
          [(NHLClient.urlOf "/schedule/now", 0, 5)] "/schedule/now" 50 (some 100)).cache
        "/standings/now" 60 none).netCalls
        = (NHLClient.get (fun _ _ => .ok 3)
            [(NHLClient.urlOf "/schedule/now", 0, 5)] "/standings/now" 60 none).netCalls :=
  c9_ttl_override_is_per_call (fun _ _ => .ok 3)
    [(NHLClient.urlOf "/schedule/now", 0, 5)] "/schedule/now" "/standings/now"
    0 50 60 5 100 none (by simp [cacheLookup]) (by decide)

/-- Embeds the resize guard shared by `GameScreen.on_resize` and
`ScheduleScreen.on_resize`: given the screen's threshold and the anchor
`self._last_width`, a new width triggers a relayout, and the anchor is
updated to it, exactly when `abs(new_width - self._last_width)` reaches
the threshold. Returns the decision and the resulting anchor. -/
def shouldRelayout (widthThreshold last_width new_width : Int) : Bool × Int :=
  if widthThreshold ≤ |new_width - last_width| then (true, new_width)
  else (false, last_width)

/-- `CARD_WIDTH = 29` from schedule.py, ScheduleScreen's resize threshold. -/
def CARD_WIDTH : Int := 29

/-- The literal threshold 20 in `GameScreen.on_resize`. -/
def gameWidthThreshold : Int := 20

/-- Folds a sequence of resize events through the guard, keeping the
anchor each call leaves behind, and returns the final anchor. -/
def applyResizes (widthThreshold last_width : Int) : List Int → Int
  | [] => last_width
  | w :: ws =>
      applyResizes widthThreshold (shouldRelayout widthThreshold last_width w).2 ws

/-- Resize events all strictly below the threshold relative to the anchor
leave the anchor unchanged. -/
theorem applyResizes_sub_threshold (th last : Int) :
    ∀ ws : List Int, (∀ x ∈ ws, |x - last| < th) → applyResizes th last ws = last
  | [], _ => rfl
  | w' :: ws', hsub => by
      have h2 : ¬ th ≤ |w' - last| := not_le.mpr (hsub w' (List.mem_cons_self _ _))
      simp only [applyResizes, shouldRelayout, h2, if_false]
      exact applyResizes_sub_threshold th last ws'
        (fun x hx => hsub x (List.mem_cons_of_mem _ hx))

/-- C3: the relayout decision is true iff the width delta from the anchor
reaches the threshold; the anchor becomes the new width exactly when the
decision is true; and after any run of sub-threshold resizes (which leave
the anchor in place) a width whose cumulative delta from the original
anchor reaches the threshold returns true. -/
theorem c3_shouldRelayout_threshold_and_anchor (th last new w : Int)
    (ws : List Int)
    (hsub : ∀ x ∈ ws, |x - last| < th) (hfinal : th ≤ |w - last|) :
    ((shouldRelayout th last new).1 = true ↔ th ≤ |new - last|)
    ∧ (shouldRelayout th last new).2 = (if th ≤ |new - last| then new else last)
    ∧ (shouldRelayout th (applyResizes th last ws) w).1 = true := by
  refine ⟨?_, ?_, ?_⟩
  · unfold shouldRelayout
    by_cases h : th ≤ |new - last| <;> simp [h]
  · unfold shouldRelayout
    by_cases h : th ≤ |new - last| <;> simp [h]
  · rw [applyResizes_sub_threshold th last ws hsub]
    unfold shouldRelayout
    simp [hfinal]

/-- Witness for C3: the spec scenario: threshold 20, anchor 80, a resize
to 95 (delta 15, no relayout), then 102 (cumulative delta 22, relayout). -/
theorem c3_shouldRelayout_threshold_and_anchor_witness :
    ((shouldRelayout 20 80 95).1 = true ↔ (20 : Int) ≤ |(95 : Int) - 80|)
    ∧ (shouldRelayout 20 80 95).2
        = (if (20 : Int) ≤ |(95 : Int) - 80| then 95 else 80)
    ∧ (shouldRelayout 20 (applyResizes 20 80 [95]) 102).1 = true :=
  c3_shouldRelayout_threshold_and_anchor 20 80 95 102 [95]
    (by decide) (by decide)

/-- Modelled from the spec: the `Timer` objects returned by the UI
framework's `set_interval` are not part of this repository; per the spec
(§4.2), `stop()` cancels a timer so its callback no longer fires, and is
safe on a timer already stopped. A slot is `none` while the attribute is
still `None` (never started), `some true` while the timer runs, and
`some false` once stopped. -/
abbrev TimerSlot := Option Bool

/-- Modelled from the spec: `Timer.stop()` marks the timer cancelled;
a never-created slot stays `none`. -/
def timerStop (t : TimerSlot) : TimerSlot :=
  match t with
  | none => none
  | some _ => some false

/-- Modelled from the spec: a timer's callback can fire only while the
timer exists and has not been stopped. -/
def timerCanFire (t : TimerSlot) : Bool :=
  match t with
  | some true => true
  | _ => false

/-- `REFRESH_INTERVAL = 30` (seconds), identical in both screens. -/
def REFRESH_INTERVAL : Int := 30

/-- State of a `GameScreen` as far as refresh, countdown and the shared
cache are concerned: `self._countdown`, the shared `client._cache`, a
count of `load_game_data` invocations (each one runs the fetch worker),
and the two timer slots `self._refresh_timer`, `self._countdown_timer`. -/
structure GameScreenState where
  countdown : Int
  cache : Cache
  fetchCount : Nat
  refresh_timer : TimerSlot
  countdown_timer : TimerSlot
  deriving DecidableEq

namespace GameScreen

/-- `GameScreen.__init__`: countdown starts at `REFRESH_INTERVAL`, both
timer attributes are `None`; the shared cache is whatever the client
already holds. -/
def init (cache : Cache) : GameScreenState :=
  { countdown := REFRESH_INTERVAL, cache := cache, fetchCount := 0,
    refresh_timer := none, countdown_timer := none }

/-- Embeds `GameScreen.on_mount`: always calls `load_game_data()`; then,
with `game_state = self.game_data.get("gameState", "FUT")`, starts both
timers and resets the countdown only when `game_state` is `PRE`, `LIVE`
or `CRIT`. -/
def on_mount (gameState : Option String) (s : GameScreenState) : GameScreenState :=
  let s := { s with fetchCount := s.fetchCount + 1 }
  if gameState.getD "FUT" ∈ (["PRE", "LIVE", "CRIT"] : List String) then
    { s with countdown := REFRESH_INTERVAL,
             refresh_timer := some true, countdown_timer := some true }
  else s

/-- Embeds `GameScreen.on_unmount`: stops each timer that was created
(`if self._refresh_timer: self._refresh_timer.stop()`, same for the
countdown timer). -/
def on_unmount (s : GameScreenState) : GameScreenState :=
  { s with refresh_timer := timerStop s.refresh_timer,
           countdown_timer := timerStop s.countdown_timer }

/-- Embeds `GameScreen._update_countdown`: decrement `self._countdown`,
wrap to `REFRESH_INTERVAL` when it would go below zero. -/
def update_countdown (s : GameScreenState) : GameScreenState :=
  { s with countdown :=
      if s.countdown - 1 < 0 then REFRESH_INTERVAL else s.countdown - 1 }

/-- Embeds `GameScreen._auto_refresh`: reset the countdown, clear the
shared cache, call `load_game_data()`. -/
def auto_refresh (s : GameScreenState) : GameScreenState :=
  { s with countdown := REFRESH_INTERVAL,
           cache := NHLClient.clear_cache s.cache,
           fetchCount := s.fetchCount + 1 }

/-- Embeds `GameScreen.action_refresh` (manual refresh, minus the cosmetic
`notify`): reset the countdown, clear the shared cache, call
`load_game_data()`. -/
def action_refresh (s : GameScreenState) : GameScreenState :=
  { s with countdown := REFRESH_INTERVAL,
           cache := NHLClient.clear_cache s.cache,
           fetchCount := s.fetchCount + 1 }

end GameScreen

/-- State of a `ScheduleScreen`: `self._countdown`, `self.current_date`
(dates modelled as integer day numbers), the shared cache, a count of
`load_games` invocations, and the two timer slots. -/
structure ScheduleScreenState where
  countdown : Int
  current_date : Int
  cache : Cache
  fetchCount : Nat
  refresh_timer : TimerSlot
  countdown_timer : TimerSlot
  deriving DecidableEq

namespace ScheduleScreen

/-- `ScheduleScreen.__init__` + `on_mount` (the screen always starts both
timers on mount): `current_date = get_nhl_today()`, countdown at
`REFRESH_INTERVAL`, one initial `load_games()`. -/
def mount (today : Int) (cache : Cache) : ScheduleScreenState :=
  { countdown := REFRESH_INTERVAL, current_date := today, cache := cache,
    fetchCount := 1, refresh_timer := some true, countdown_timer := some true }

/-- Embeds `ScheduleScreen.on_unmount`: stops each created timer. -/
def on_unmount (s : ScheduleScreenState) : ScheduleScreenState :=
  { s with refresh_timer := timerStop s.refresh_timer,
           countdown_timer := timerStop s.countdown_timer }

/-- Embeds `ScheduleScreen._update_countdown`: decrement, wrap below zero
to `REFRESH_INTERVAL`. -/
def update_countdown (s : ScheduleScreenState) : ScheduleScreenState :=
  { s with countdown :=
      if s.countdown - 1 < 0 then REFRESH_INTERVAL else s.countdown - 1 }

/-- Embeds `ScheduleScreen._auto_refresh`: always reset the countdown,
but clear the cache and call `load_games()` only when
`self.current_date == get_nhl_today()`. -/
def auto_refresh (today : Int) (s : ScheduleScreenState) : ScheduleScreenState :=
  let s := { s with countdown := REFRESH_INTERVAL }
  if s.current_date = today then
    { s with cache := NHLClient.clear_cache s.cache,
             fetchCount := s.fetchCount + 1 }
  else s

/-- Embeds `ScheduleScreen.action_refresh` (manual refresh, minus the
cosmetic `notify`): reset the countdown, clear the cache, call
`load_games()` — unconditionally, whatever date is shown. -/
def action_refresh (s : ScheduleScreenState) : ScheduleScreenState :=
  { s with countdown := REFRESH_INTERVAL,
           cache := NHLClient.clear_cache s.cache,
           fetchCount := s.fetchCount + 1 }

/-- Embeds `ScheduleScreen.action_prev_day`: move a day back and reload. -/
def action_prev_day (s : ScheduleScreenState) : ScheduleScreenState :=
  { s with current_date := s.current_date - 1, fetchCount := s.fetchCount + 1 }

/-- Embeds `ScheduleScreen.action_next_day`: move a day forward and reload. -/
def action_next_day (s : ScheduleScreenState) : ScheduleScreenState :=
  { s with current_date := s.current_date + 1, fetchCount := s.fetchCount + 1 }

/-- Embeds `ScheduleScreen.action_today`: jump to today, reset the
countdown, reload. -/
def action_today (today : Int) (s : ScheduleScreenState) : ScheduleScreenState :=
  { s with current_date := today, countdown := REFRESH_INTERVAL,
           fetchCount := s.fetchCount + 1 }

end ScheduleScreen

/-- C4 is false as stated: on a ScheduleScreen showing a date other than
today (here date 0 while today is 1), the automatic tick neither clears
the shared cache nor re-invokes the fetch routine. -/
theorem c4_counterexample_tick_skips_when_not_today :
    ¬ ((ScheduleScreen.auto_refresh 1
        { countdown := 5, current_date := 0, cache := [("u", 0, 1)],
          fetchCount := 2, refresh_timer := some true,
          countdown_timer := some true }).cache = []
      ∧ (ScheduleScreen.auto_refresh 1
        { countdown := 5, current_date := 0, cache := [("u", 0, 1)],
          fetchCount := 2, refresh_timer := some true,
          countdown_timer := some true }).fetchCount = 3) := by
  decide

/-- C4 amended: on every automatic tick, GameScreen clears the whole
shared cache and re-invokes its fetch routine; ScheduleScreen does so
exactly when the viewed date is today, and otherwise the tick only resets
the countdown, leaving cache and fetch state untouched. -/
theorem c4_auto_refresh_invalidates_and_refetches (g : GameScreenState)
    (s : ScheduleScreenState) (today : Int) :
    (GameScreen.auto_refresh g).cache = []
    ∧ (GameScreen.auto_refresh g).fetchCount = g.fetchCount + 1
    ∧ (ScheduleScreen.auto_refresh today s).cache
        = (if s.current_date = today then [] else s.cache)
    ∧ (ScheduleScreen.auto_refresh today s).fetchCount
        = (if s.current_date = today then s.fetchCount + 1 else s.fetchCount)
    ∧ (ScheduleScreen.auto_refresh today s).countdown = REFRESH_INTERVAL := by
  refine ⟨rfl, rfl, ?_, ?_, ?_⟩ <;>
    · unfold ScheduleScreen.auto_refresh
      by_cases h : s.current_date = today <;> simp [h, NHLClient.clear_cache]

/-- C5 is false as stated: on a ScheduleScreen showing a date other than
today, manual refresh clears the cache while the automatic tick leaves it
alone — the two do not produce identical cache state. -/
theorem c5_counterexample_manual_differs_from_tick :
    (ScheduleScreen.action_refresh
      { countdown := 12, current_date := 0, cache := [("u", 0, 1)],
        fetchCount := 2, refresh_timer := some true,
        countdown_timer := some true }).cache
    ≠ (ScheduleScreen.auto_refresh 1
      { countdown := 12, current_date := 0, cache := [("u", 0, 1)],
        fetchCount := 2, refresh_timer := some true,
        countdown_timer := some true }).cache := by
  decide

/-- C5 amended: manual refresh always resets the countdown to the
interval, clears the whole cache, and triggers the same fetch routine;
its effect on the session equals the automatic tick's on GameScreen in
every state, and on ScheduleScreen exactly when the viewed date is today. -/
theorem c5_manual_refresh_converges_with_tick (g : GameScreenState)
    (s : ScheduleScreenState) (today : Int) :
    GameScreen.action_refresh g = GameScreen.auto_refresh g
    ∧ (ScheduleScreen.action_refresh s).countdown = REFRESH_INTERVAL
    ∧ (ScheduleScreen.action_refresh s).cache = []
    ∧ (ScheduleScreen.action_refresh s).fetchCount = s.fetchCount + 1
    ∧ (s.current_date = today →
        ScheduleScreen.action_refresh s = ScheduleScreen.auto_refresh today s) := by
  refine ⟨rfl, rfl, rfl, rfl, ?_⟩
  intro h
  unfold ScheduleScreen.action_refresh ScheduleScreen.auto_refresh
  simp [h, NHLClient.clear_cache]

/-- Witness for C5: on a freshly mounted ScheduleScreen (which views
today), manual refresh and the automatic tick produce the same state. -/
theorem c5_manual_refresh_converges_with_tick_witness :
    ScheduleScreen.action_refresh (ScheduleScreen.mount 0 [("u", 0, 1)])
      = ScheduleScreen.auto_refresh 0 (ScheduleScreen.mount 0 [("u", 0, 1)]) :=
  (c5_manual_refresh_converges_with_tick (GameScreen.init [])
    (ScheduleScreen.mount 0 [("u", 0, 1)]) 0).2.2.2.2 rfl

/-- Events a GameScreen session can undergo after construction: mounting
is folded into the initial state; afterwards the 1-second countdown tick
and the 30-second auto-refresh fire only while their timers run, the user
may refresh manually at any time, and the screen may unmount. -/
inductive GameStep : GameScreenState → GameScreenState → Prop
  | tick (s : GameScreenState) : timerCanFire s.countdown_timer = true →
      GameStep s (GameScreen.update_countdown s)
  | auto (s : GameScreenState) : timerCanFire s.refresh_timer = true →
      GameStep s (GameScreen.auto_refresh s)
  | manual (s : GameScreenState) : GameStep s (GameScreen.action_refresh s)
  | unmount (s : GameScreenState) : GameStep s (GameScreen.on_unmount s)

/-- States a GameScreen session reaches from construction plus mount. -/
def GameReachable (gameState : Option String) (cache : Cache)
    (s : GameScreenState) : Prop :=
  Relation.ReflTransGen GameStep
    (GameScreen.on_mount gameState (GameScreen.init cache)) s

/-- Events a ScheduleScreen session can undergo after mounting: the two
timer callbacks (only while their timers run), manual refresh, the date
navigation actions, and unmounting. -/
inductive ScheduleStep (today : Int) :
    ScheduleScreenState → ScheduleScreenState → Prop
  | tick (s : ScheduleScreenState) : timerCanFire s.countdown_timer = true →
      ScheduleStep today s (ScheduleScreen.update_countdown s)
  | auto (s : ScheduleScreenState) : timerCanFire s.refresh_timer = true →
      ScheduleStep today s (ScheduleScreen.auto_refresh today s)
  | manual (s : ScheduleScreenState) :
      ScheduleStep today s (ScheduleScreen.action_refresh s)
  | prevDay (s : ScheduleScreenState) :
      ScheduleStep today s (ScheduleScreen.action_prev_day s)
  | nextDay (s : ScheduleScreenState) :
      ScheduleStep today s (ScheduleScreen.action_next_day s)
  | goToday (s : ScheduleScreenState) :
      ScheduleStep today s (ScheduleScreen.action_today today s)
  | unmount (s : ScheduleScreenState) :
      ScheduleStep today s (ScheduleScreen.on_unmount s)

/-- States a ScheduleScreen session reaches from mount. -/
def ScheduleReachable (today : Int) (cache : Cache)
    (s : ScheduleScreenState) : Prop :=
  Relation.ReflTransGen (ScheduleStep today)
    (ScheduleScreen.mount today cache) s

/-- C7: in every reachable state of a refresh session — on either screen —
the countdown lies in [0, REFRESH_INTERVAL]: the 1-second tick decrements
it and wraps it back to the interval when it would go negative, and every
automatic or manual refresh resets it to the interval. -/
theorem c7_countdown_in_range (gameState : Option String) (c1 c2 : Cache)
    (today : Int) (g : GameScreenState) (s : ScheduleScreenState)
    (hg : GameReachable gameState c1 g) (hs : ScheduleReachable today c2 s) :
    (0 ≤ g.countdown ∧ g.countdown ≤ REFRESH_INTERVAL)
    ∧ (0 ≤ s.countdown ∧ s.countdown ≤ REFRESH_INTERVAL) := by
  constructor
  · induction hg with
    | refl =>
        unfold GameScreen.on_mount GameScreen.init
        by_cases h : (gameState.getD "FUT") ∈ (["PRE", "LIVE", "CRIT"] : List String) <;>
          simp [h, REFRESH_INTERVAL]
    | tail _ hstep ih =>
        cases hstep with
        | tick h =>
            simp only [GameScreen.update_countdown, REFRESH_INTERVAL] at ih ⊢
            split <;> omega
        | auto h => simp [GameScreen.auto_refresh, REFRESH_INTERVAL]
        | manual => simp [GameScreen.action_refresh, REFRESH_INTERVAL]
        | unmount => exact ih
  · induction hs with
    | refl => simp [ScheduleScreen.mount, REFRESH_INTERVAL]
    | tail _ hstep ih =>
        cases hstep with
        | tick h =>
            simp only [ScheduleScreen.update_countdown, REFRESH_INTERVAL] at ih ⊢
            split <;> omega
        | auto h =>
            simp only [ScheduleScreen.auto_refresh, REFRESH_INTERVAL]
            split <;> simp
        | manual => simp [ScheduleScreen.action_refresh, REFRESH_INTERVAL]
        | prevDay => exact ih
        | nextDay => exact ih
        | goToday => simp [ScheduleScreen.action_today, REFRESH_INTERVAL]
        | unmount => exact ih

/-- Witness for C7: the freshly mounted states of both screens (reachable
by the empty step sequence) have their countdown at 30, inside the range. -/
theorem c7_countdown_in_range_witness :
    (0 ≤ (GameScreen.on_mount (some "LIVE") (GameScreen.init [])).countdown
      ∧ (GameScreen.on_mount (some "LIVE") (GameScreen.init [])).countdown
          ≤ REFRESH_INTERVAL)
    ∧ (0 ≤ (ScheduleScreen.mount 0 []).countdown
      ∧ (ScheduleScreen.mount 0 []).countdown ≤ REFRESH_INTERVAL) :=
  c7_countdown_in_range (some "LIVE") [] [] 0
    (GameScreen.on_mount (some "LIVE") (GameScreen.init []))
    (ScheduleScreen.mount 0 [])
    Relation.ReflTransGen.refl Relation.ReflTransGen.refl

/-- Timer-subsystem events relevant after a screen's lifecycle calls: one
of the two callbacks firing, or another `stop()` of both timers. -/
inductive TimerEvent
  | fireRefresh
  | fireCountdown
  | stopEvt
  deriving DecidableEq

/-- The two timer slots of a screen, viewed on their own. -/
structure TimerPair where
  refresh_timer : TimerSlot
  countdown_timer : TimerSlot
  deriving DecidableEq

/-- Both screens' `on_unmount` at the timer level: stop each created
timer. -/
def stopBoth (tp : TimerPair) : TimerPair :=
  { refresh_timer := timerStop tp.refresh_timer,
    countdown_timer := timerStop tp.countdown_timer }

/-- Modelled from the spec: a fire event is possible only while its timer
runs; stopping is always possible. -/
def timerEnabled (tp : TimerPair) : TimerEvent → Bool
  | .fireRefresh => timerCanFire tp.refresh_timer
  | .fireCountdown => timerCanFire tp.countdown_timer
  | .stopEvt => true

/-- Modelled from the spec: firing a callback does not change whether the
timers run; stopping cancels both. -/
def timerApply (tp : TimerPair) : TimerEvent → TimerPair
  | .fireRefresh => tp
  | .fireCountdown => tp
  | .stopEvt => stopBoth tp

/-- A sequence of timer events each of which is enabled when its turn
comes. -/
def validTrace (tp : TimerPair) : List TimerEvent → Prop
  | [] => True
  | e :: es => timerEnabled tp e = true ∧ validTrace (timerApply tp e) es

/-- Neither timer of the pair can fire. -/
def timersStopped (tp : TimerPair) : Bool :=
  !(timerCanFire tp.refresh_timer) && !(timerCanFire tp.countdown_timer)

theorem timerStop_timerStop (t : TimerSlot) :
    timerStop (timerStop t) = timerStop t := by
  cases t <;> rfl

theorem timersStopped_stopBoth (tp : TimerPair) :
    timersStopped (stopBoth tp) = true := by
  obtain ⟨r, c⟩ := tp
  cases r <;> cases c <;> rfl

/-- From a state with both timers unable to fire, every valid trace
consists of stop events only: no callback ever fires again. -/
theorem no_fire_from_stopped (evs : List TimerEvent) :
    ∀ tp : TimerPair, timersStopped tp = true → validTrace tp evs →
      ∀ e ∈ evs, e = TimerEvent.stopEvt := by
  induction evs with
  | nil => intro tp _ _ e he; cases he
  | cons e' es ih =>
      intro tp h hv e he
      have hstop : timersStopped tp = true := h
      simp only [timersStopped, Bool.and_eq_true, Bool.not_eq_true'] at h
      have h1 : e' = TimerEvent.stopEvt := by
        cases e' with
        | fireRefresh =>
            exact absurd hv.1 (by simp [timerEnabled, h.1])
        | fireCountdown =>
            exact absurd hv.1 (by simp [timerEnabled, h.2])
        | stopEvt => rfl
      subst h1
      cases he with
      | head => rfl
      | tail _ hmem =>
          exact ih (timerApply tp TimerEvent.stopEvt)
            (timersStopped_stopBoth tp) hv.2 e hmem

/-- C8: `on_unmount` leaves the screen's timer pair stopped, so in every
valid subsequent trace of the timer subsystem no refresh callback and no
countdown callback ever fires (only further stops occur); and stopping is
idempotent — a second `on_unmount` changes nothing, and `on_unmount` on a
never-started session (both attributes still `None`) is a no-op. -/
theorem c8_stop_idempotent_and_silences_timers (tp : TimerPair)
    (evs : List TimerEvent) (g : GameScreenState) (s : ScheduleScreenState)
    (c : Cache) (htrace : validTrace (stopBoth tp) evs) :
    (∀ e ∈ evs, e = TimerEvent.stopEvt)
    ∧ (⟨(GameScreen.on_unmount g).refresh_timer,
        (GameScreen.on_unmount g).countdown_timer⟩ : TimerPair)
        = stopBoth ⟨g.refresh_timer, g.countdown_timer⟩
    ∧ (⟨(ScheduleScreen.on_unmount s).refresh_timer,
        (ScheduleScreen.on_unmount s).countdown_timer⟩ : TimerPair)
        = stopBoth ⟨s.refresh_timer, s.countdown_timer⟩
    ∧ stopBoth (stopBoth tp) = stopBoth tp
    ∧ GameScreen.on_unmount (GameScreen.on_unmount g) = GameScreen.on_unmount g
    ∧ ScheduleScreen.on_unmount (ScheduleScreen.on_unmount s)
        = ScheduleScreen.on_unmount s
    ∧ GameScreen.on_unmount (GameScreen.init c) = GameScreen.init c := by
  refine ⟨no_fire_from_stopped evs (stopBoth tp) (timersStopped_stopBoth tp) htrace,
    rfl, rfl, ?_, ?_, ?_, rfl⟩
  · simp [stopBoth, timerStop_timerStop]
  · simp [GameScreen.on_unmount, timerStop_timerStop]
  · simp [ScheduleScreen.on_unmount, timerStop_timerStop]

/-- Witness for C8: a running timer pair, stopped, then one further stop
event — the trace contains no fire, and all the idempotence equations hold
at concrete states. -/
theorem c8_stop_idempotent_and_silences_timers_witness :
    (∀ e ∈ ([TimerEvent.stopEvt] : List TimerEvent), e = TimerEvent.stopEvt)
    ∧ (⟨(GameScreen.on_unmount (GameScreen.on_mount (some "LIVE")
          (GameScreen.init []))).refresh_timer,
        (GameScreen.on_unmount (GameScreen.on_mount (some "LIVE")
          (GameScreen.init []))).countdown_timer⟩ : TimerPair)
        = stopBoth ⟨(GameScreen.on_mount (some "LIVE")
            (GameScreen.init [])).refresh_timer,
          (GameScreen.on_mount (some "LIVE")
            (GameScreen.init [])).countdown_timer⟩
    ∧ (⟨(ScheduleScreen.on_unmount (ScheduleScreen.mount 0 [])).refresh_timer,
        (ScheduleScreen.on_unmount (ScheduleScreen.mount 0 [])).countdown_timer⟩
          : TimerPair)
        = stopBoth ⟨(ScheduleScreen.mount 0 []).refresh_timer,
            (ScheduleScreen.mount 0 []).countdown_timer⟩
    ∧ stopBoth (stopBoth ⟨some true, some true⟩) = stopBoth ⟨some true, some true⟩
    ∧ GameScreen.on_unmount (GameScreen.on_unmount (GameScreen.on_mount
        (some "LIVE") (GameScreen.init [])))
        = GameScreen.on_unmount (GameScreen.on_mount (some "LIVE")
            (GameScreen.init []))
    ∧ ScheduleScreen.on_unmount (ScheduleScreen.on_unmount
        (ScheduleScreen.mount 0 []))
        = ScheduleScreen.on_unmount (ScheduleScreen.mount 0 [])
    ∧ GameScreen.on_unmount (GameScreen.init []) = GameScreen.init [] :=
  c8_stop_idempotent_and_silences_timers ⟨some true, some true⟩
    [TimerEvent.stopEvt]
    (GameScreen.on_mount (some "LIVE") (GameScreen.init []))
    (ScheduleScreen.mount 0 []) [] ⟨rfl, trivial⟩

/-- C10: mounting a GameScreen starts both timers (and only then) when the
game state — `game_data.get("gameState", "FUT")` — is PRE, LIVE or CRIT;
for every other state both timer attributes stay `None`, and consequently
no timer callback (auto refresh or countdown) can ever fire in any valid
trace of that screen's timer subsystem. -/
theorem c10_mount_starts_timers_only_for_live_states (gameState : Option String)
    (c : Cache) (evs : List TimerEvent)
    (htrace : validTrace
      ⟨(GameScreen.on_mount gameState (GameScreen.init c)).refresh_timer,
       (GameScreen.on_mount gameState (GameScreen.init c)).countdown_timer⟩ evs) :
    ((GameScreen.on_mount gameState (GameScreen.init c)).refresh_timer,
     (GameScreen.on_mount gameState (GameScreen.init c)).countdown_timer)
      = (if gameState.getD "FUT" ∈ (["PRE", "LIVE", "CRIT"] : List String)
          then (some true, some true) else (none, none))
    ∧ (gameState.getD "FUT" ∉ (["PRE", "LIVE", "CRIT"] : List String) →
        ∀ e ∈ evs, e = TimerEvent.stopEvt) := by
  by_cases h : gameState.getD "FUT" ∈ (["PRE", "LIVE", "CRIT"] : List String)
  · refine ⟨?_, fun hno => absurd h hno⟩
    simp [GameScreen.on_mount, GameScreen.init, h]
  · have hpair : ((GameScreen.on_mount gameState (GameScreen.init c)).refresh_timer,
        (GameScreen.on_mount gameState (GameScreen.init c)).countdown_timer)
          = ((none : TimerSlot), (none : TimerSlot)) := by
      simp [GameScreen.on_mount, GameScreen.init, h]
    refine ⟨by rw [hpair]; simp [h], fun _ => ?_⟩
    refine no_fire_from_stopped evs _ ?_ htrace
    have h1 : (GameScreen.on_mount gameState (GameScreen.init c)).refresh_timer
        = none := congrArg Prod.fst hpair
    have h2 : (GameScreen.on_mount gameState (GameScreen.init c)).countdown_timer
        = none := congrArg Prod.snd hpair
    simp [timersStopped, h1, h2, timerCanFire]

/-- Witness for C10: a final (`OFF`) game, mounted, leaves both timer
attributes `None`, and a subsequent stop-only trace indeed contains no
fire event. -/
theorem c10_mount_starts_timers_only_for_live_states_witness :
    ((GameScreen.on_mount (some "OFF") (GameScreen.init [])).refresh_timer,
     (GameScreen.on_mount (some "OFF") (GameScreen.init [])).countdown_timer)
      = (if (some "OFF").getD "FUT" ∈ (["PRE", "LIVE", "CRIT"] : List String)
          then (some true, some true) else (none, none))
    ∧ (∀ e ∈ ([TimerEvent.stopEvt] : List TimerEvent), e = TimerEvent.stopEvt) :=
  have h := c10_mount_starts_timers_only_for_live_states (some "OFF") []
    [TimerEvent.stopEvt] ⟨rfl, trivial⟩
  ⟨h.1, h.2 (by simp)⟩
